import Mathlib

/-
Shallow embedding of the grey6502 emulator core (src/cpu.rs and
src/instructions.rs).

Machine integers are modelled as Nat with explicit truncation: u8 values
are kept below 256 and u16 values below 65536 by applying the masks u8
and u16 at every point where the Rust code stores into a typed register
or performs a truncating cast.  Memory cells have Rust type i16; every
value the program ever stores in them is a byte (the 0xEA filler, loaded
program bytes, and u8 register values), so a cell is modelled as its
16-bit two of-complement bit pattern (a Nat below 65536); the casts
`as u8` and `as u16` on such a pattern are `% 256` and the identity.

The Rust source mixes u8 and i16 operands in several places without the
casts the compiler would require; the embedding inserts the evident
low-byte truncation wherever a fetched cell value flows into a u8
register or u8 operation.  Overflow of the plain + and - operators is
modelled as two of-complement wrapping (the release-profile semantics);
no input considered below exercises those overflows.

Panics (out-of-bounds indexing, and the explicit panic on an unknown
opcode) are modelled by Option / the StepOutcome.panicked result: a
function returns none exactly when the Rust code panics.

Fields of the Rust CPU struct that carry no emulation state are dropped:
the pacing Duration, the Arc/Mutex wrapper around memory (the lock is
taken and released around every access and never observed concurrently),
and the boxed instruction table (embedded as the closed Instr type with
the same dispatch order as init_instructions).  println! calls are kept
only for their memory-access side effects.
-/

namespace Grey6502

/-- Truncation to a byte, the `as u8` cast. -/
def u8 (n : Nat) : Nat := n % 256

/-- Truncation to 16 bits, the `as u16` cast / u16 wrapping. -/
def u16 (n : Nat) : Nat := n % 65536

/-- StatRegister from src/cpu.rs lines 7-17: the eight processor flags. -/
structure StatRegister where
  negative : Bool
  overflow : Bool
  ignored : Bool
  sbreak : Bool
  decimal : Bool
  interrupt : Bool
  zero : Bool
  carry : Bool
  deriving DecidableEq

/-- Conversion `impl From<u8> for StatRegister` (src/cpu.rs lines 45-58),
transcribed exactly: each field tests `byte & mask == 1`. -/
def StatRegister.fromByte (byte : Nat) : StatRegister :=
  { negative := byte &&& 0x1 == 1
    overflow := byte &&& 0x2 == 1
    ignored := byte &&& 0x4 == 1
    sbreak := byte &&& 0x8 == 1
    decimal := byte &&& 0x10 == 1
    interrupt := byte &&& 0x20 == 1
    zero := byte &&& 0x40 == 1
    carry := byte &&& 0x80 == 1 }

/-- Conversion `impl From<StatRegister> for u8` (src/cpu.rs lines 60-71):
negative at bit 7 down to carry at bit 0. -/
def StatRegister.toByte (s : StatRegister) : Nat :=
  s.negative.toNat <<< 7 ||| s.overflow.toNat <<< 6 ||| s.ignored.toNat <<< 5 |||
  s.sbreak.toNat <<< 4 ||| s.decimal.toNat <<< 3 ||| s.interrupt.toNat <<< 2 |||
  s.zero.toNat <<< 1 ||| s.carry.toNat

/-- Registers from src/cpu.rs lines 73-80. -/
structure Registers where
  pc : Nat
  ac : Nat
  x : Nat
  y : Nat
  sr : StatRegister
  sp : Nat

/-- Registers::new (src/cpu.rs lines 83-92). -/
def Registers.new : Registers :=
  { pc := 0, ac := 0, x := 0, y := 0, sr := StatRegister.fromByte 0, sp := 0 }

/-- Registers::increment_pc (src/cpu.rs lines 94-97): wrapping_add(1),
returning the new value. -/
def Registers.increment_pc (r : Registers) : Nat × Registers :=
  let pc2 := u16 (r.pc + 1)
  (pc2, { r with pc := pc2 })

/-- Registers::increment_pc_by (src/cpu.rs lines 98-101). -/
def Registers.increment_pc_by (r : Registers) (amount : Nat) : Nat × Registers :=
  let pc2 := u16 (r.pc + amount)
  (pc2, { r with pc := pc2 })

/-- Registers::decrement_pc (src/cpu.rs lines 102-105): wrapping_sub(1). -/
def Registers.decrement_pc (r : Registers) : Nat × Registers :=
  let pc2 := u16 (r.pc + 65535)
  (pc2, { r with pc := pc2 })

/-- CPU state from src/cpu.rs lines 108-115: memory is `[i16; 0xFFFF]`
(65535 cells, indices 0 to 65534) and stack is `[u8; 0xFF]` (255 cells,
indices 0 to 254), both modelled as total functions whose values outside
the index range are never read. -/
structure CPU where
  memory : Nat → Nat
  stack : Nat → Nat
  registers : Registers

/-- Length of the memory array, 0xFFFF as written in the source. -/
def memLen : Nat := 0xFFFF

/-- Length of the stack array, 0xFF as written in the source. -/
def stackLen : Nat := 0xFF

/-- CPU::new (src/cpu.rs lines 141-150): memory filled with 0xEA,
stack zeroed, registers at Registers::new. -/
def CPU.new : CPU :=
  { memory := fun _ => 0xEA, stack := fun _ => 0, registers := Registers.new }

/-- Helper mirroring the statement `cpu.registers.increment_pc()`. -/
def CPU.incPC (c : CPU) : Nat × CPU :=
  let r := c.registers.increment_pc
  (r.1, { c with registers := r.2 })

/-- Helper mirroring `cpu.registers.increment_pc_by(n)`. -/
def CPU.incPCBy (c : CPU) (amount : Nat) : Nat × CPU :=
  let r := c.registers.increment_pc_by amount
  (r.1, { c with registers := r.2 })

/-- Helper mirroring `cpu.registers.decrement_pc()`. -/
def CPU.decPC (c : CPU) : Nat × CPU :=
  let r := c.registers.decrement_pc
  (r.1, { c with registers := r.2 })

/-- Record-update helper for `cpu.registers.pc = v`. -/
def CPU.setPC (c : CPU) (v : Nat) : CPU :=
  { c with registers := { c.registers with pc := v } }

/-- Record-update helper for `cpu.registers.ac = v`. -/
def CPU.setAC (c : CPU) (v : Nat) : CPU :=
  { c with registers := { c.registers with ac := v } }

/-- Record-update helper for `cpu.registers.x = v`. -/
def CPU.setX (c : CPU) (v : Nat) : CPU :=
  { c with registers := { c.registers with x := v } }

/-- Record-update helper for `cpu.registers.y = v`. -/
def CPU.setY (c : CPU) (v : Nat) : CPU :=
  { c with registers := { c.registers with y := v } }

/-- Record-update helper for `cpu.registers.sp = v`. -/
def CPU.setSP (c : CPU) (v : Nat) : CPU :=
  { c with registers := { c.registers with sp := v } }

/-- Record-update helper for `cpu.registers.sr = v`. -/
def CPU.setSR (c : CPU) (v : StatRegister) : CPU :=
  { c with registers := { c.registers with sr := v } }

/-- Record-update helper for `cpu.registers.sr.negative = b`. -/
def CPU.setNegative (c : CPU) (b : Bool) : CPU :=
  c.setSR { c.registers.sr with negative := b }

/-- Record-update helper for `cpu.registers.sr.overflow = b`. -/
def CPU.setOverflow (c : CPU) (b : Bool) : CPU :=
  c.setSR { c.registers.sr with overflow := b }

/-- Record-update helper for `cpu.registers.sr.zero = b`. -/
def CPU.setZero (c : CPU) (b : Bool) : CPU :=
  c.setSR { c.registers.sr with zero := b }

/-- Record-update helper for `cpu.registers.sr.carry = b`. -/
def CPU.setCarry (c : CPU) (b : Bool) : CPU :=
  c.setSR { c.registers.sr with carry := b }

/-- Record-update helper for `cpu.registers.sr.interrupt = b`. -/
def CPU.setInterrupt (c : CPU) (b : Bool) : CPU :=
  c.setSR { c.registers.sr with interrupt := b }

/-- Record-update helper for `cpu.registers.sr.decimal = b`. -/
def CPU.setDecimal (c : CPU) (b : Bool) : CPU :=
  c.setSR { c.registers.sr with decimal := b }

/-- CPU::push_to_stack (src/cpu.rs lines 167-173): if sp equals the stack
length it is reset to 0; the value is written at sp and sp is incremented
with wrapping.  After the reset check sp is at most 254, so the write is
always in bounds and the operation is total. -/
def CPU.push_to_stack (c : CPU) (value : Nat) : CPU :=
  let sp0 := if c.registers.sp = stackLen then 0 else c.registers.sp
  { c with
    stack := fun i => if i = sp0 then u8 value else c.stack i,
    registers := { c.registers with sp := u8 (sp0 + 1) } }

/-- CPU::pull_from_stack (src/cpu.rs lines 175-181): if sp is 0 it is set
to the stack length; sp is then decremented with wrapping and the cell at
`sp.wrapping_add(1)` is read.  That index equals the pre-decrement value
and is 255 (out of bounds, a panic: none) exactly when sp was 0 or 255. -/
def CPU.pull_from_stack (c : CPU) : Option (Nat × CPU) :=
  let sp1 := if c.registers.sp = 0 then stackLen else c.registers.sp
  let sp2 := u8 (sp1 + 255)
  let idx := u8 (sp2 + 1)
  if idx < stackLen then
    some (c.stack idx, { c with registers := { c.registers with sp := sp2 } })
  else none

/-- CPU::set_memory_at_address (src/cpu.rs lines 183-188): plain indexed
store; the index is in bounds only below the memory length 0xFFFF, so a
write at address 0xFFFF panics (none). -/
def CPU.set_memory_at_address (c : CPU) (address : Nat) (byte : Nat) : Option CPU :=
  if address < memLen then
    some { c with memory := fun a => if a = address then u16 byte else c.memory a }
  else none

/-- CPU::get_memory_at_address (src/cpu.rs lines 190-200): when the
address equals the memory length 0xFFFF it is replaced by the result of
increment_pc (a side effect on the program counter); the cell at the
resulting address is then read, which panics (none) if that address is
itself 0xFFFF. -/
def CPU.get_memory_at_address (c : CPU) (address : Nat) : Option (Nat × CPU) :=
  if address = memLen then
    let p := c.incPC
    if p.1 < memLen then some (c.memory p.1, p.2) else none
  else
    if address < memLen then some (c.memory address, c) else none

/-- CPU::get_umemory_at_address (src/cpu.rs lines 201-211): identical to
get_memory_at_address but the cell value is cast `as u8`. -/
def CPU.get_umemory_at_address (c : CPU) (address : Nat) : Option (Nat × CPU) :=
  if address = memLen then
    let p := c.incPC
    if p.1 < memLen then some (u8 (c.memory p.1), p.2) else none
  else
    if address < memLen then some (u8 (c.memory address), c) else none

/-- Rust u8::overflowing_add on byte values. -/
def overflowing_add8 (a b : Nat) : Nat × Bool := (u8 (a + b), 256 ≤ a + b)

/-- Rust u8::overflowing_sub on byte values (the Bool is the borrow). -/
def overflowing_sub8 (a b : Nat) : Nat × Bool := (u8 (a + 256 - b), a < b)

/-- Rust u8::overflowing_shl: the shift amount is taken mod 8 and the
Bool reports only whether the amount was 8 or more (it is not a carry). -/
def overflowing_shl8 (a s : Nat) : Nat × Bool := (u8 (a <<< (s % 8)), 8 ≤ s)

/-- Rust u8::overflowing_shr, same convention as overflowing_shl. -/
def overflowing_shr8 (a s : Nat) : Nat × Bool := (u8 a >>> (s % 8), 8 ≤ s)

/-- Rust u8::rotate_left(1) on a byte value. -/
def rotate_left8 (a : Nat) : Nat := u8 (a <<< 1) ||| a >>> 7

/-- Rust u8::rotate_right(1) on a byte value. -/
def rotate_right8 (a : Nat) : Nat := a >>> 1 ||| u8 (a <<< 7)

/-- Loader (external collaborator per the spec): preload the program
bytes at addresses 0, 1, ... before execution starts.  Equivalent to a
sequence of set_memory_at_address calls at those low addresses. -/
def loadProgram (c : CPU) (prog : List Nat) : CPU :=
  { c with memory := fun a => prog.getD a (c.memory a) }

/-- Mode enum from src/instructions.rs lines 6-35. -/
inductive Mode where
  | A
  | Absolute
  | AbsoluteX
  | AbsoluteY
  | Immediate
  | Implied
  | Indirect
  | IndirectX
  | IndirectY
  | Relative
  | Zeropage
  | ZeropageX
  | ZeropageY

/-- Mode::get_memory (src/instructions.rs lines 38-121): computes
end_address per the mode (default arms leave it 0x0000) and reads the
cell there; the Rust signature returns u8, truncating the i16 read. -/
def Mode.get_memory (m : Mode) (c : CPU) : Option (Nat × CPU) := do
  let (end_address, c) ← (match m with
    | Mode.Immediate => do
        let (a, c) := c.incPC
        some (a, c)
    | Mode.Zeropage => do
        let (address, c) := c.incPC
        let (f_mem_address, c) ← c.get_memory_at_address address
        let (address, c) := c.incPC
        let (s_mem_address, c) ← c.get_memory_at_address address
        some ((f_mem_address ||| u16 (s_mem_address <<< 8)) &&& 0xFF, c)
    | Mode.ZeropageX => do
        let (address, c) := c.incPC
        let (f_mem_address, c) ← c.get_memory_at_address address
        let (address, c) := c.incPC
        let (s_mem_address, c) ← c.get_memory_at_address address
        some (u16 ((f_mem_address ||| u16 (s_mem_address <<< 8)) + c.registers.x) &&& 0xFF, c)
    | Mode.ZeropageY => do
        let (address, c) := c.incPC
        let (f_mem_address, c) ← c.get_memory_at_address address
        let (address, c) := c.incPC
        let (s_mem_address, c) ← c.get_memory_at_address address
        some (u16 ((f_mem_address ||| u16 (s_mem_address <<< 8)) + c.registers.y) &&& 0xFF, c)
    | Mode.Absolute => do
        let (first_half_address, c) := c.incPC
        let (first_half_memory, c) ← c.get_memory_at_address first_half_address
        let (second_half_address, c) := c.incPC
        let (second_half_memory, c) ← c.get_memory_at_address second_half_address
        some (first_half_memory ||| u16 (second_half_memory <<< 8), c)
    | Mode.AbsoluteX => do
        let (first_half_address, c) := c.incPC
        let (first_half_memory, c) ← c.get_memory_at_address first_half_address
        let (second_half_address, c) := c.incPC
        let (second_half_memory, c) ← c.get_memory_at_address second_half_address
        some (u16 ((first_half_memory ||| u16 (second_half_memory <<< 8)) + c.registers.x), c)
    | Mode.AbsoluteY => do
        let (first_half_address, c) := c.incPC
        let (first_half_memory, c) ← c.get_memory_at_address first_half_address
        let (second_half_address, c) := c.incPC
        let (second_half_memory, c) ← c.get_memory_at_address second_half_address
        some (u16 ((first_half_memory ||| u16 (second_half_memory <<< 8)) + c.registers.y), c)
    | Mode.Indirect => do
        let (f_og_address, c) := c.incPC
        let (f_address, c) ← c.get_memory_at_address f_og_address
        let (s_og_address, c) := c.incPC
        let (s_address, c) ← c.get_memory_at_address s_og_address
        some (f_address ||| u16 (s_address <<< 8), c)
    | Mode.IndirectX => do
        let (f_og_address, c) := c.incPC
        let (f_address, c) ← c.get_memory_at_address f_og_address
        let (s_og_address, c) := c.incPC
        let (s_address, c) ← c.get_memory_at_address s_og_address
        some (u16 ((f_address ||| u16 (s_address <<< 8)) + c.registers.x), c)
    | Mode.IndirectY => do
        let (f_og_address, c) := c.incPC
        let (f_address, c) ← c.get_memory_at_address f_og_address
        let (s_og_address, c) := c.incPC
        let (s_address, c) ← c.get_memory_at_address s_og_address
        some (u16 ((f_address ||| u16 (s_address <<< 8)) + c.registers.y), c)
    | _ => some (0x0000, c))
  let (out, c) ← c.get_memory_at_address end_address
  some (u8 out, c)

/-- Mode::set_memory (src/instructions.rs lines 123-208): same address
computation as get_memory, then sets Negative and Zero from the byte
being written and stores it at end_address. -/
def Mode.set_memory (m : Mode) (byte : Nat) (c : CPU) : Option CPU := do
  let (end_address, c) ← (match m with
    | Mode.Immediate => do
        let (a, c) := c.incPC
        some (a, c)
    | Mode.Zeropage => do
        let (address, c) := c.incPC
        let (f_mem_address, c) ← c.get_memory_at_address address
        let (address, c) := c.incPC
        let (s_mem_address, c) ← c.get_memory_at_address address
        some ((f_mem_address ||| u16 (s_mem_address <<< 8)) &&& 0xFF, c)
    | Mode.ZeropageX => do
        let (address, c) := c.incPC
        let (f_mem_address, c) ← c.get_memory_at_address address
        let (address, c) := c.incPC
        let (s_mem_address, c) ← c.get_memory_at_address address
        some (u16 ((f_mem_address ||| u16 (s_mem_address <<< 8)) + c.registers.x) &&& 0xFF, c)
    | Mode.ZeropageY => do
        let (address, c) := c.incPC
        let (f_mem_address, c) ← c.get_memory_at_address address
        let (address, c) := c.incPC
        let (s_mem_address, c) ← c.get_memory_at_address address
        some (u16 ((f_mem_address ||| u16 (s_mem_address <<< 8)) + c.registers.y) &&& 0xFF, c)
    | Mode.Absolute => do
        let (first_half_address, c) := c.incPC
        let (first_half_memory, c) ← c.get_memory_at_address first_half_address
        let (second_half_address, c) := c.incPC
        let (second_half_memory, c) ← c.get_memory_at_address second_half_address
        some (first_half_memory ||| u16 (second_half_memory <<< 8), c)
    | Mode.AbsoluteX => do
        let (first_half_address, c) := c.incPC
        let (first_half_memory, c) ← c.get_memory_at_address first_half_address
        let (second_half_address, c) := c.incPC
        let (second_half_memory, c) ← c.get_memory_at_address second_half_address
        some (u16 ((first_half_memory ||| u16 (second_half_memory <<< 8)) + c.registers.x), c)
    | Mode.AbsoluteY => do
        let (first_half_address, c) := c.incPC
        let (first_half_memory, c) ← c.get_memory_at_address first_half_address
        let (second_half_address, c) := c.incPC
        let (second_half_memory, c) ← c.get_memory_at_address second_half_address
        some (u16 ((first_half_memory ||| u16 (second_half_memory <<< 8)) + c.registers.y), c)
    | Mode.Indirect => do
        let (f_og_address, c) := c.incPC
        let (f_address, c) ← c.get_memory_at_address f_og_address
        let (s_og_address, c) := c.incPC
        let (s_address, c) ← c.get_memory_at_address s_og_address
        some (f_address ||| u16 (s_address <<< 8), c)
    | Mode.IndirectX => do
        let (f_og_address, c) := c.incPC
        let (f_address, c) ← c.get_memory_at_address f_og_address
        let (s_og_address, c) := c.incPC
        let (s_address, c) ← c.get_memory_at_address s_og_address
        some (u16 ((f_address ||| u16 (s_address <<< 8)) + c.registers.x), c)
    | Mode.IndirectY => do
        let (f_og_address, c) := c.incPC
        let (f_address, c) ← c.get_memory_at_address f_og_address
        let (s_og_address, c) := c.incPC
        let (s_address, c) ← c.get_memory_at_address s_og_address
        some (u16 ((f_address ||| u16 (s_address <<< 8)) + c.registers.y), c)
    | _ => some (0x0000, c))
  let c := c.setNegative (byte &&& 0x80 == 0x80)
  let c := c.setZero (byte == 0)
  c.set_memory_at_address end_address byte

/-- BRK::execute (src/instructions.rs lines 308-321). -/
def BRK.execute (_opcode : Nat) (c : CPU) : Option (Bool × CPU) := do
  let (current_address, c) := c.incPCBy 2
  let c := c.push_to_stack (current_address >>> 8)
  let c := c.push_to_stack current_address
  let c := c.push_to_stack c.registers.sr.toByte
  let interrupt := c.registers.sr.toByte &&& 0b100
  let c := c.setSR (StatRegister.fromByte interrupt)
  let (address_first, c) := c.incPC
  let (address_second, c) := c.incPC
  let (m1, c) ← c.get_memory_at_address address_first
  let (m2, c) ← c.get_memory_at_address address_second
  let c := c.setPC (m1 ||| u16 (m2 <<< 8))
  some (false, c)

/-- BPL::execute (src/instructions.rs lines 322-333): the branch target is
the wrapping sum of the program counter (read before the operand fetch,
the method receiver) and the raw operand. -/
def BPL.execute (_opcode : Nat) (c : CPU) : Option (Bool × CPU) := do
  let (address, c) := c.incPC
  if !c.registers.sr.negative then do
    let pc0 := c.registers.pc
    let (memory, c) ← c.get_memory_at_address address
    let c := c.setPC (u16 (pc0 + memory))
    some (false, c)
  else do
    let (_, c) := c.incPC
    some (true, c)

/-- JSR::execute (src/instructions.rs lines 334-341): pushes pc+2 high
then low, then sets pc to pc plus the byte at pc+1 (an i16 addition of
the old pc and the operand, reinterpreted as u16). -/
def JSR.execute (_opcode : Nat) (c : CPU) : Option (Bool × CPU) := do
  let c := c.push_to_stack (u16 (c.registers.pc + 2) >>> 8)
  let c := c.push_to_stack (u16 (c.registers.pc + 2))
  let pc0 := c.registers.pc
  let (memory, c) ← c.get_memory_at_address (u16 (pc0 + 1))
  let c := c.setPC (u16 (pc0 + memory))
  some (false, c)

/-- BMI::execute (src/instructions.rs lines 342-358): when the operand has
bit 7 set the code subtracts `operand & 0x7F` from the program counter,
otherwise it adds the operand. -/
def BMI.execute (_opcode : Nat) (c : CPU) : Option (Bool × CPU) := do
  let (address, c) := c.incPC
  if c.registers.sr.negative then do
    let (memory, c) ← c.get_memory_at_address address
    let c :=
      if memory &&& 0x80 == 0x80 then
        c.setPC (u16 (c.registers.pc + 65536 - (memory &&& 0x7F)))
      else
        c.setPC (u16 (c.registers.pc + memory))
    some (false, c)
  else do
    let (_, c) := c.incPC
    some (true, c)

/-- RTI::execute (src/instructions.rs lines 359-365). -/
def RTI.execute (_opcode : Nat) (c : CPU) : Option (Bool × CPU) := do
  let (v, c) ← c.pull_from_stack
  let c := c.setSR (StatRegister.fromByte v)
  let (lo, c) ← c.pull_from_stack
  let (hi, c) ← c.pull_from_stack
  let c := c.setPC (lo ||| u16 (hi <<< 8))
  some (false, c)

/-- BVC::execute (src/instructions.rs lines 366-382). -/
def BVC.execute (_opcode : Nat) (c : CPU) : Option (Bool × CPU) := do
  let (address, c) := c.incPC
  if !c.registers.sr.overflow then do
    let (memory, c) ← c.get_memory_at_address address
    let c :=
      if memory &&& 0x80 == 0x80 then
        c.setPC (u16 (c.registers.pc + 65536 - (memory &&& 0x7F)))
      else
        c.setPC (u16 (c.registers.pc + memory))
    some (false, c)
  else do
    let (_, c) := c.incPC
    some (true, c)

/-- RTS::execute (src/instructions.rs lines 383-388): pulls the low byte
then the high byte and installs them as the program counter. -/
def RTS.execute (_opcode : Nat) (c : CPU) : Option (Bool × CPU) := do
  let (lo, c) ← c.pull_from_stack
  let (hi, c) ← c.pull_from_stack
  let c := c.setPC (lo ||| u16 (hi <<< 8))
  some (false, c)

/-- BVS::execute (src/instructions.rs lines 389-405). -/
def BVS.execute (_opcode : Nat) (c : CPU) : Option (Bool × CPU) := do
  let (address, c) := c.incPC
  if c.registers.sr.overflow then do
    let (memory, c) ← c.get_memory_at_address address
    let c :=
      if memory &&& 0x80 == 0x80 then
        c.setPC (u16 (c.registers.pc + 65536 - (memory &&& 0x7F)))
      else
        c.setPC (u16 (c.registers.pc + memory))
    some (false, c)
  else do
    let (_, c) := c.incPC
    some (true, c)

/-- BCC::execute (src/instructions.rs lines 406-422). -/
def BCC.execute (_opcode : Nat) (c : CPU) : Option (Bool × CPU) := do
  let (address, c) := c.incPC
  if !c.registers.sr.carry then do
    let (memory, c) ← c.get_memory_at_address address
    let c :=
      if memory &&& 0x80 == 0x80 then
        c.setPC (u16 (c.registers.pc + 65536 - (memory &&& 0x7F)))
      else
        c.setPC (u16 (c.registers.pc + memory))
    some (false, c)
  else do
    let (_, c) := c.incPC
    some (true, c)

/-- LDY::execute (src/instructions.rs lines 423-464). -/
def LDY.execute (opcode : Nat) (c : CPU) : Option (Bool × CPU) := do
  let (memory, c) ← (match opcode with
    | 0xA0 => do
        let (address, c) := c.incPC
        c.get_memory_at_address address
    | 0xA4 => do
        let (address, c) := c.incPC
        c.get_memory_at_address (address &&& 0xFF)
    | 0xB4 => do
        let (address, c) := c.incPC
        let x_register := c.registers.x
        c.get_memory_at_address (u16 (address + x_register) &&& 0xFF)
    | 0xAC => do
        let (first_half_address, c) := c.incPC
        let (first_half_memory, c) ← c.get_memory_at_address first_half_address
        let (second_half_address, c) := c.incPC
        let (second_half_memory, c) ← c.get_memory_at_address second_half_address
        c.get_memory_at_address (first_half_memory ||| u16 (second_half_memory <<< 8))
    | 0xBC => do
        let (first_half_address, c) := c.incPC
        let (first_half_memory, c) ← c.get_memory_at_address first_half_address
        let (second_half_address, c) := c.incPC
        let (second_half_memory, c) ← c.get_memory_at_address second_half_address
        let x_register := c.registers.x
        c.get_memory_at_address
          (u16 ((first_half_memory ||| u16 (second_half_memory <<< 8)) + x_register))
    | _ => some (0x00, c))
  let c := c.setY (u8 memory)
  let c := c.setNegative (c.registers.y &&& 0x80 == 1)
  let c := c.setZero (c.registers.y == 0)
  some (true, c)

/-- BCS::execute (src/instructions.rs lines 465-481). -/
def BCS.execute (_opcode : Nat) (c : CPU) : Option (Bool × CPU) := do
  let (address, c) := c.incPC
  if c.registers.sr.carry then do
    let (memory, c) ← c.get_memory_at_address address
    let c :=
      if memory &&& 0x80 == 0x80 then
        c.setPC (u16 (c.registers.pc + 65536 - (memory &&& 0x7F)))
      else
        c.setPC (u16 (c.registers.pc + memory))
    some (false, c)
  else do
    let (_, c) := c.incPC
    some (true, c)

/-- CPY::execute (src/instructions.rs lines 482-508): Carry is set to the
borrow flag of the wrapping subtraction. -/
def CPY.execute (opcode : Nat) (c : CPU) : Option (Bool × CPU) := do
  let (address, c) := c.incPC
  let (memory, c) ← (match opcode with
    | 0xC0 => c.get_memory_at_address address
    | 0xC4 => c.get_memory_at_address (address &&& 0xFF)
    | 0xCC => do
        let (address_first, c) := c.incPC
        let (mem_first, c) ← c.get_memory_at_address address_first
        let (address_second, c) := c.incPC
        let (mem_second, c) ← c.get_memory_at_address address_second
        c.get_memory_at_address (mem_first ||| u16 (mem_second <<< 8))
    | _ => some (0x00, c))
  let p := overflowing_sub8 c.registers.y (u8 memory)
  let c := c.setNegative (p.1 &&& 0x80 == 0x80)
  let c := c.setZero (p.1 == 0)
  let c := c.setCarry p.2
  some (true, c)

/-- BNE::execute (src/instructions.rs lines 509-524): unlike the other
branches, the not-taken arm does not consume the offset byte. -/
def BNE.execute (_opcode : Nat) (c : CPU) : Option (Bool × CPU) := do
  let (address, c) := c.incPC
  if !c.registers.sr.zero then do
    let (memory, c) ← c.get_memory_at_address address
    let c :=
      if memory &&& 0x80 == 0x80 then
        c.setPC (u16 (c.registers.pc + 65536 - (memory &&& 0x7F)))
      else
        c.setPC (u16 (c.registers.pc + memory))
    some (false, c)
  else
    some (true, c)

/-- CPX::execute (src/instructions.rs lines 525-551): the match arms test
0xC0/0xC4/0xCC although the declared opcodes are 0xE0/0xE4, so the fetch
always falls through to the default and compares against 0. -/
def CPX.execute (opcode : Nat) (c : CPU) : Option (Bool × CPU) := do
  let (address, c) := c.incPC
  let (memory, c) ← (match opcode with
    | 0xC0 => c.get_memory_at_address address
    | 0xC4 => c.get_memory_at_address (address &&& 0xFF)
    | 0xCC => do
        let (address_first, c) := c.incPC
        let (mem_first, c) ← c.get_memory_at_address address_first
        let (address_second, c) := c.incPC
        let (mem_second, c) ← c.get_memory_at_address address_second
        c.get_memory_at_address (mem_first ||| u16 (mem_second <<< 8))
    | _ => some (0x00, c))
  let p := overflowing_sub8 c.registers.x (u8 memory)
  let c := c.setNegative (p.1 &&& 0x80 == 0x80)
  let c := c.setZero (p.1 == 0)
  let c := c.setCarry p.2
  some (true, c)

/-- BEQ::execute (src/instructions.rs lines 552-567): when the offset has
bit 7 set the code subtracts `offset & 0x7F` (not the two of-complement
magnitude) from the program counter. -/
def BEQ.execute (_opcode : Nat) (c : CPU) : Option (Bool × CPU) := do
  let (address, c) := c.incPC
  if c.registers.sr.zero then do
    let (memory, c) ← c.get_memory_at_address address
    let c :=
      if memory &&& 0x80 == 0x80 then
        c.setPC (u16 (c.registers.pc + 65536 - (memory &&& 0x7F)))
      else
        c.setPC (u16 (c.registers.pc + memory))
    some (false, c)
  else
    some (true, c)

/-- ORA::execute (src/instructions.rs lines 568-629): Negative is set by
the test `ac & 0x80 == 1`, which never holds. -/
def ORA.execute (opcode : Nat) (c : CPU) : Option (Bool × CPU) := do
  let (memory, c) ← (match opcode with
    | 0x09 => do
        let (address, c) := c.incPC
        c.get_memory_at_address address
    | 0x05 => do
        let (address, c) := c.incPC
        c.get_memory_at_address (address &&& 0xFF)
    | 0x15 => do
        let (address, c) := c.incPC
        c.get_memory_at_address (u16 (address + c.registers.x) &&& 0xFF)
    | 0x0D => do
        let (first_address, c) := c.incPC
        let (first_mem, c) ← c.get_memory_at_address first_address
        let (second_address, c) := c.incPC
        let (second_mem, c) ← c.get_memory_at_address second_address
        c.get_memory_at_address (first_mem ||| u16 (second_mem <<< 8))
    | 0x1D => do
        let (first_address, c) := c.incPC
        let (first_mem, c) ← c.get_memory_at_address first_address
        let (second_address, c) := c.incPC
        let (second_mem, c) ← c.get_memory_at_address second_address
        c.get_memory_at_address (u16 ((first_mem ||| u16 (second_mem <<< 8)) + c.registers.x))
    | 0x19 => do
        let (first_address, c) := c.incPC
        let (first_mem, c) ← c.get_memory_at_address first_address
        let (second_address, c) := c.incPC
        let (second_mem, c) ← c.get_memory_at_address second_address
        c.get_memory_at_address (u16 ((first_mem ||| u16 (second_mem <<< 8)) + c.registers.y))
    | 0x01 => do
        let (og_address, c) := c.incPC
        let (address, c) ← c.get_memory_at_address (u16 (og_address + c.registers.x) &&& 0xFF)
        c.get_memory_at_address address
    | 0x11 => do
        let (og_address, c) := c.incPC
        let (address, c) ← c.get_memory_at_address (u16 (og_address + c.registers.y) &&& 0xFF)
        c.get_memory_at_address address
    | _ => some (0x00, c))
  let c := c.setAC (c.registers.ac ||| u8 memory)
  let c := c.setNegative (c.registers.ac &&& 0x80 == 1)
  let c := c.setZero (c.registers.ac == 0)
  some (true, c)

/-- AND::execute (src/instructions.rs lines 630-691): the last indirect
arm tests 0x32 although the declared opcode is 0x31, so opcode 0x31 falls
through to the default and the accumulator is cleared; Negative is set by
the test `ac & 0x80 == 1`, which never holds. -/
def AND.execute (opcode : Nat) (c : CPU) : Option (Bool × CPU) := do
  let (memory, c) ← (match opcode with
    | 0x29 => do
        let (address, c) := c.incPC
        c.get_memory_at_address address
    | 0x25 => do
        let (address, c) := c.incPC
        c.get_memory_at_address (address &&& 0xFF)
    | 0x35 => do
        let (address, c) := c.incPC
        c.get_memory_at_address (u16 (address + c.registers.x) &&& 0xFF)
    | 0x2D => do
        let (first_address, c) := c.incPC
        let (first_mem, c) ← c.get_memory_at_address first_address
        let (second_address, c) := c.incPC
        let (second_mem, c) ← c.get_memory_at_address second_address
        c.get_memory_at_address (first_mem ||| u16 (second_mem <<< 8))
    | 0x3D => do
        let (first_address, c) := c.incPC
        let (first_mem, c) ← c.get_memory_at_address first_address
        let (second_address, c) := c.incPC
        let (second_mem, c) ← c.get_memory_at_address second_address
        c.get_memory_at_address (u16 ((first_mem ||| u16 (second_mem <<< 8)) + c.registers.x))
    | 0x39 => do
        let (first_address, c) := c.incPC
        let (first_mem, c) ← c.get_memory_at_address first_address
        let (second_address, c) := c.incPC
        let (second_mem, c) ← c.get_memory_at_address second_address
        c.get_memory_at_address (u16 ((first_mem ||| u16 (second_mem <<< 8)) + c.registers.y))
    | 0x21 => do
        let (og_address, c) := c.incPC
        let (address, c) ← c.get_memory_at_address (u16 (og_address + c.registers.x) &&& 0xFF)
        c.get_memory_at_address address
    | 0x32 => do
        let (og_address, c) := c.incPC
        let (address, c) ← c.get_memory_at_address (u16 (og_address + c.registers.y) &&& 0xFF)
        c.get_memory_at_address address
    | _ => some (0x00, c))
  let c := c.setAC (c.registers.ac &&& u8 memory)
  let c := c.setNegative (c.registers.ac &&& 0x80 == 1)
  let c := c.setZero (c.registers.ac == 0)
  some (true, c)

/-- EOR::execute (src/instructions.rs lines 692-753): Negative is set by
the test `ac & 0x80 == 1`, which never holds. -/
def EOR.execute (opcode : Nat) (c : CPU) : Option (Bool × CPU) := do
  let (memory, c) ← (match opcode with
    | 0x49 => do
        let (address, c) := c.incPC
        c.get_memory_at_address address
    | 0x45 => do
        let (address, c) := c.incPC
        c.get_memory_at_address (address &&& 0xFF)
    | 0x55 => do
        let (address, c) := c.incPC
        c.get_memory_at_address (u16 (address + c.registers.x) &&& 0xFF)
    | 0x4D => do
        let (first_address, c) := c.incPC
        let (first_mem, c) ← c.get_memory_at_address first_address
        let (second_address, c) := c.incPC
        let (second_mem, c) ← c.get_memory_at_address second_address
        c.get_memory_at_address (first_mem ||| u16 (second_mem <<< 8))
    | 0x5D => do
        let (first_address, c) := c.incPC
        let (first_mem, c) ← c.get_memory_at_address first_address
        let (second_address, c) := c.incPC
        let (second_mem, c) ← c.get_memory_at_address second_address
        c.get_memory_at_address (u16 ((first_mem ||| u16 (second_mem <<< 8)) + c.registers.x))
    | 0x59 => do
        let (first_address, c) := c.incPC
        let (first_mem, c) ← c.get_memory_at_address first_address
        let (second_address, c) := c.incPC
        let (second_mem, c) ← c.get_memory_at_address second_address
        c.get_memory_at_address (u16 ((first_mem ||| u16 (second_mem <<< 8)) + c.registers.y))
    | 0x41 => do
        let (og_address, c) := c.incPC
        let (address, c) ← c.get_memory_at_address (u16 (og_address + c.registers.x) &&& 0xFF)
        c.get_memory_at_address address
    | 0x51 => do
        let (og_address, c) := c.incPC
        let (address, c) ← c.get_memory_at_address (u16 (og_address + c.registers.y) &&& 0xFF)
        c.get_memory_at_address address
    | _ => some (0x00, c))
  let c := c.setAC (c.registers.ac ^^^ u8 memory)
  let c := c.setNegative (c.registers.ac &&& 0x80 == 1)
  let c := c.setZero (c.registers.ac == 0)
  some (true, c)

/-- ADC::execute (src/instructions.rs lines 754-819): Carry and Overflow
are both set to the conjunction of the two overflow flags, and Negative
is set by the test `ac & 0x80 == 1`, which never holds. -/
def ADC.execute (opcode : Nat) (c : CPU) : Option (Bool × CPU) := do
  let (memory, c) ← (match opcode with
    | 0x69 => do
        let (address, c) := c.incPC
        c.get_memory_at_address address
    | 0x65 => do
        let (address, c) := c.incPC
        c.get_memory_at_address (address &&& 0xFF)
    | 0x75 => do
        let (address, c) := c.incPC
        c.get_memory_at_address (u16 (address + c.registers.x) &&& 0xFF)
    | 0x6D => do
        let (first_address, c) := c.incPC
        let (first_mem, c) ← c.get_memory_at_address first_address
        let (second_address, c) := c.incPC
        let (second_mem, c) ← c.get_memory_at_address second_address
        c.get_memory_at_address (first_mem ||| u16 (second_mem <<< 8))
    | 0x7D => do
        let (first_address, c) := c.incPC
        let (first_mem, c) ← c.get_memory_at_address first_address
        let (second_address, c) := c.incPC
        let (second_mem, c) ← c.get_memory_at_address second_address
        c.get_memory_at_address (u16 ((first_mem ||| u16 (second_mem <<< 8)) + c.registers.x))
    | 0x79 => do
        let (first_address, c) := c.incPC
        let (first_mem, c) ← c.get_memory_at_address first_address
        let (second_address, c) := c.incPC
        let (second_mem, c) ← c.get_memory_at_address second_address
        c.get_memory_at_address (u16 ((first_mem ||| u16 (second_mem <<< 8)) + c.registers.y))
    | 0x61 => do
        let (og_address, c) := c.incPC
        let (address, c) ← c.get_memory_at_address (u16 (og_address + c.registers.x) &&& 0xFF)
        c.get_memory_at_address address
    | 0x71 => do
        let (og_address, c) := c.incPC
        let (address, c) ← c.get_memory_at_address (u16 (og_address + c.registers.y) &&& 0xFF)
        c.get_memory_at_address address
    | _ => some (0x00, c))
  let p1 := overflowing_add8 c.registers.ac (u8 memory)
  let p2 := overflowing_add8 p1.1 c.registers.sr.carry.toNat
  let c := c.setAC p2.1
  let c := c.setCarry (p1.2 && p2.2)
  let c := c.setNegative (c.registers.ac &&& 0x80 == 1)
  let c := c.setZero (c.registers.ac == 0)
  let c := c.setOverflow (p1.2 && p2.2)
  some (true, c)

/-- STA::execute (src/instructions.rs lines 820-874): the zero-page arm
stores at the address of the operand byte itself (masked to 8 bits), and
the absolute arms combine the two address bytes with a bitwise AND. -/
def STA.execute (opcode : Nat) (c : CPU) : Option (Bool × CPU) := do
  let c ← (match opcode with
    | 0x85 => do
        let (address, c) := c.incPC
        c.set_memory_at_address (address &&& 0xFF) c.registers.ac
    | 0x95 => do
        let (address, c) := c.incPC
        c.set_memory_at_address (u16 ((address &&& 0xFF) + c.registers.x)) c.registers.ac
    | 0x8D => do
        let (fhalf_address, c) := c.incPC
        let (fhalf_memory, c) ← c.get_memory_at_address fhalf_address
        let (shalf_address, c) := c.incPC
        let (shalf_memory, c) ← c.get_memory_at_address shalf_address
        let address := fhalf_memory &&& u16 (shalf_memory <<< 8)
        c.set_memory_at_address address c.registers.ac
    | 0x9D => do
        let (fhalf_address, c) := c.incPC
        let (fhalf_memory, c) ← c.get_memory_at_address fhalf_address
        let (shalf_address, c) := c.incPC
        let (shalf_memory, c) ← c.get_memory_at_address shalf_address
        let address := fhalf_memory &&& u16 (shalf_memory <<< 8)
        c.set_memory_at_address (u16 (address + c.registers.x)) c.registers.ac
    | 0x99 => do
        let (fhalf_address, c) := c.incPC
        let (fhalf_memory, c) ← c.get_memory_at_address fhalf_address
        let (shalf_address, c) := c.incPC
        let (shalf_memory, c) ← c.get_memory_at_address shalf_address
        let address := fhalf_memory &&& u16 (shalf_memory <<< 8)
        c.set_memory_at_address (u16 (address + c.registers.y)) c.registers.ac
    | 0x81 => do
        let (og_address, c) := c.incPC
        let (address, c) ← c.get_memory_at_address (u16 (og_address + c.registers.x))
        c.set_memory_at_address address c.registers.ac
    | 0x91 => do
        let (og_address, c) := c.incPC
        let (address, c) ← c.get_memory_at_address (u16 (og_address + c.registers.y))
        c.set_memory_at_address address c.registers.ac
    | _ => some c)
  some (true, c)

/-- LDA::execute (src/instructions.rs lines 875-937): the zero-page arm
reads at the address of the operand byte itself (masked to 8 bits), and
the absolute arms combine the two address bytes with a bitwise AND. -/
def LDA.execute (opcode : Nat) (c : CPU) : Option (Bool × CPU) := do
  let (memory, c) ← (match opcode with
    | 0xA9 => do
        let (address, c) := c.incPC
        c.get_memory_at_address address
    | 0xA5 => do
        let (address, c) := c.incPC
        c.get_memory_at_address (address &&& 0xFF)
    | 0xB5 => do
        let (address, c) := c.incPC
        c.get_memory_at_address (u16 ((address &&& 0xFF) + c.registers.x))
    | 0xAD => do
        let (fhalf_address, c) := c.incPC
        let (fhalf_memory, c) ← c.get_memory_at_address fhalf_address
        let (shalf_address, c) := c.incPC
        let (shalf_memory, c) ← c.get_memory_at_address shalf_address
        let address := fhalf_memory &&& u16 (shalf_memory <<< 8)
        c.get_memory_at_address address
    | 0xBD => do
        let (fhalf_address, c) := c.incPC
        let (fhalf_memory, c) ← c.get_memory_at_address fhalf_address
        let (shalf_address, c) := c.incPC
        let (shalf_memory, c) ← c.get_memory_at_address shalf_address
        let address := fhalf_memory &&& u16 (shalf_memory <<< 8)
        c.get_memory_at_address (u16 (address + c.registers.x))
    | 0xB9 => do
        let (fhalf_address, c) := c.incPC
        let (fhalf_memory, c) ← c.get_memory_at_address fhalf_address
        let (shalf_address, c) := c.incPC
        let (shalf_memory, c) ← c.get_memory_at_address shalf_address
        let address := fhalf_memory &&& u16 (shalf_memory <<< 8)
        c.get_memory_at_address (u16 (address + c.registers.y))
    | 0xA1 => do
        let (og_address, c) := c.incPC
        let (address, c) ← c.get_memory_at_address (u16 (og_address + c.registers.x))
        c.get_memory_at_address address
    | 0xB1 => do
        let (og_address, c) := c.incPC
        let (address, c) ← c.get_memory_at_address (u16 (og_address + c.registers.y))
        c.get_memory_at_address address
    | _ => some (0x00, c))
  let c := c.setAC (u8 memory)
  let c := c.setNegative (c.registers.ac &&& 0x80 == 0x80)
  let c := c.setZero (c.registers.ac == 0)
  some (true, c)

/-- CMP::execute (src/instructions.rs lines 938-999): Carry is set to the
borrow flag of the wrapping subtraction. -/
def CMP.execute (opcode : Nat) (c : CPU) : Option (Bool × CPU) := do
  let (address, c) := c.incPC
  let (memory, c) ← (match opcode with
    | 0xC9 => c.get_memory_at_address address
    | 0xC5 => c.get_memory_at_address (address &&& 0xFF)
    | 0xD5 => c.get_memory_at_address (u16 ((address &&& 0xFF) + c.registers.x))
    | 0xCD => do
        let (address_first, c) := c.incPC
        let (mem_first, c) ← c.get_memory_at_address address_first
        let (address_second, c) := c.incPC
        let (mem_second, c) ← c.get_memory_at_address address_second
        c.get_memory_at_address (mem_first ||| u16 (mem_second <<< 8))
    | 0xDD => do
        let (address_first, c) := c.incPC
        let (mem_first, c) ← c.get_memory_at_address address_first
        let (address_second, c) := c.incPC
        let (mem_second, c) ← c.get_memory_at_address address_second
        c.get_memory_at_address (u16 ((mem_first ||| u16 (mem_second <<< 8)) + c.registers.x))
    | 0xD9 => do
        let (address_first, c) := c.incPC
        let (mem_first, c) ← c.get_memory_at_address address_first
        let (address_second, c) := c.incPC
        let (mem_second, c) ← c.get_memory_at_address address_second
        c.get_memory_at_address (u16 ((mem_first ||| u16 (mem_second <<< 8)) + c.registers.y))
    | 0xC1 => do
        let (og_address, c) := c.incPC
        let (address, c) ← c.get_memory_at_address (u16 (og_address + c.registers.x))
        c.get_memory_at_address address
    | 0xD1 => do
        let (og_address, c) := c.incPC
        let (address, c) ← c.get_memory_at_address (u16 (og_address + c.registers.y))
        c.get_memory_at_address address
    | _ => some (0x00, c))
  let p := overflowing_sub8 c.registers.ac (u8 memory)
  let c := c.setNegative (p.1 &&& 0x80 == 0x80)
  let c := c.setZero (p.1 == 0)
  let c := c.setCarry p.2
  some (true, c)

/-- SBC::execute (src/instructions.rs lines 1000-1065): Carry and
Overflow are both set to the conjunction of the two borrow flags, and
Negative is set by the test `ac & 0x80 == 1`, which never holds. -/
def SBC.execute (opcode : Nat) (c : CPU) : Option (Bool × CPU) := do
  let (memory, c) ← (match opcode with
    | 0xE9 => do
        let (address, c) := c.incPC
        c.get_memory_at_address address
    | 0xE5 => do
        let (address, c) := c.incPC
        c.get_memory_at_address (address &&& 0xFF)
    | 0xF5 => do
        let (address, c) := c.incPC
        c.get_memory_at_address (u16 (address + c.registers.x) &&& 0xFF)
    | 0xED => do
        let (first_address, c) := c.incPC
        let (first_mem, c) ← c.get_memory_at_address first_address
        let (second_address, c) := c.incPC
        let (second_mem, c) ← c.get_memory_at_address second_address
        c.get_memory_at_address (first_mem ||| u16 (second_mem <<< 8))
    | 0xFD => do
        let (first_address, c) := c.incPC
        let (first_mem, c) ← c.get_memory_at_address first_address
        let (second_address, c) := c.incPC
        let (second_mem, c) ← c.get_memory_at_address second_address
        c.get_memory_at_address (u16 ((first_mem ||| u16 (second_mem <<< 8)) + c.registers.x))
    | 0xF9 => do
        let (first_address, c) := c.incPC
        let (first_mem, c) ← c.get_memory_at_address first_address
        let (second_address, c) := c.incPC
        let (second_mem, c) ← c.get_memory_at_address second_address
        c.get_memory_at_address (u16 ((first_mem ||| u16 (second_mem <<< 8)) + c.registers.y))
    | 0xE1 => do
        let (og_address, c) := c.incPC
        let (address, c) ← c.get_memory_at_address (u16 (og_address + c.registers.x) &&& 0xFF)
        c.get_memory_at_address address
    | 0xF1 => do
        let (og_address, c) := c.incPC
        let (address, c) ← c.get_memory_at_address (u16 (og_address + c.registers.y) &&& 0xFF)
        c.get_memory_at_address address
    | _ => some (0x00, c))
  let p1 := overflowing_sub8 c.registers.ac (u8 memory)
  let p2 := overflowing_sub8 p1.1 c.registers.sr.carry.toNat
  let c := c.setAC p2.1
  let c := c.setCarry (p1.2 && p2.2)
  let c := c.setNegative (c.registers.ac &&& 0x80 == 1)
  let c := c.setZero (c.registers.ac == 0)
  let c := c.setOverflow (p1.2 && p2.2)
  some (true, c)

/-- LDX::execute (src/instructions.rs lines 1066-1107): the absolute arms
combine the two address bytes with a bitwise AND. -/
def LDX.execute (opcode : Nat) (c : CPU) : Option (Bool × CPU) := do
  let c ← (match opcode with
    | 0xA2 => do
        let (address, c) := c.incPC
        let (m, c) ← c.get_memory_at_address address
        some (c.setX (u8 m))
    | 0xA6 => do
        let (address, c) := c.incPC
        let (m, c) ← c.get_memory_at_address (address &&& 0xFF)
        some (c.setX (u8 m))
    | 0xB6 => do
        let (address, c) := c.incPC
        let (m, c) ← c.get_memory_at_address (u16 ((address &&& 0xFF) + c.registers.x))
        some (c.setX (u8 m))
    | 0xAE => do
        let (first_address, c) := c.incPC
        let (first_mem, c) ← c.get_memory_at_address first_address
        let (second_address, c) := c.incPC
        let (second_mem, c) ← c.get_memory_at_address second_address
        let (m, c) ← c.get_memory_at_address (first_mem &&& u16 (second_mem <<< 8))
        some (c.setX (u8 m))
    | 0xBE => do
        let (first_address, c) := c.incPC
        let (first_mem, c) ← c.get_memory_at_address first_address
        let (second_address, c) := c.incPC
        let (second_mem, c) ← c.get_memory_at_address second_address
        let (m, c) ← c.get_memory_at_address
          (u16 ((first_mem &&& u16 (second_mem <<< 8)) + c.registers.y))
        some (c.setX (u8 m))
    | _ => some c)
  let c := c.setNegative (c.registers.x &&& 0x80 == 0x80)
  let c := c.setZero (c.registers.x == 0)
  some (true, c)

/-- BIT::execute (src/instructions.rs lines 1108-1126): Negative tests
bit 6 and Overflow tests bit 5 of the fetched byte. -/
def BIT.execute (opcode : Nat) (c : CPU) : Option (Bool × CPU) := do
  let (address, c) := c.incPC
  let (memory, c) ← (match opcode with
    | 0x24 => c.get_memory_at_address (address &&& 0xFF)
    | 0x2C => c.get_memory_at_address address
    | _ => some (0x00, c))
  let c := c.setNegative (memory &&& 0x40 == 0x40)
  let c := c.setOverflow (memory &&& 0x20 == 0x20)
  let c := c.setZero (c.registers.ac &&& u8 memory == 0)
  some (true, c)

/-- STY::execute (src/instructions.rs lines 1127-1147): the zero-page
arms store at the (masked) address of the operand byte itself. -/
def STY.execute (opcode : Nat) (c : CPU) : Option (Bool × CPU) := do
  let c ← (match opcode with
    | 0x84 => do
        let (address, c) := c.incPC
        c.set_memory_at_address (address &&& 0xFF) c.registers.y
    | 0x94 => do
        let (address, c) := c.incPC
        c.set_memory_at_address (u16 (address + c.registers.x) &&& 0xFF) c.registers.y
    | 0x8C => do
        let (address, c) := c.incPC
        c.set_memory_at_address address c.registers.y
    | _ => some c)
  some (true, c)

/-- ASL::execute (src/instructions.rs lines 1148-1181): after the match
every opcode (including the accumulator form) shifts the fetched value
and stores the result at pc - 1; Carry comes from overflowing_shl, which
reports only whether the shift amount was 8 or more, so it is false. -/
def ASL.execute (opcode : Nat) (c : CPU) : Option (Bool × CPU) := do
  let (memory, c) ← (match opcode with
    | 0x0A => do
        let p := overflowing_shl8 c.registers.ac 1
        let c := c.setAC p.1
        let c := c.setNegative (c.registers.ac &&& 0x80 == 0x80)
        let c := c.setZero (c.registers.ac == 0)
        let c := c.setCarry p.2
        some ((0x00 : Nat), c)
    | 0x06 => Mode.Zeropage.get_memory c
    | 0x16 => Mode.ZeropageX.get_memory c
    | 0x0E => Mode.Absolute.get_memory c
    | 0x1E => Mode.AbsoluteX.get_memory c
    | _ => some ((0x00 : Nat), c))
  let p := overflowing_shl8 memory 1
  let address := u16 (c.registers.pc + 65535)
  let c ← c.set_memory_at_address address p.1
  let c := c.setNegative (c.registers.ac &&& 0x80 == 0x80)
  let c := c.setZero (c.registers.ac == 0)
  let c := c.setCarry p.2
  some (true, c)

/-- ROL::execute (src/instructions.rs lines 1182-1215): Carry is set to
false unconditionally; the rotated value is stored at pc - 1. -/
def ROL.execute (opcode : Nat) (c : CPU) : Option (Bool × CPU) := do
  let (memory, c) ← (match opcode with
    | 0x2A => do
        let result := rotate_left8 c.registers.ac
        let c := c.setAC (u8 result)
        let c := c.setNegative (c.registers.ac &&& 0x80 == 0x80)
        let c := c.setZero (c.registers.ac == 0)
        let c := c.setCarry false
        some ((0x00 : Nat), c)
    | 0x26 => Mode.Zeropage.get_memory c
    | 0x36 => Mode.ZeropageX.get_memory c
    | 0x2E => Mode.Absolute.get_memory c
    | 0x3E => Mode.AbsoluteX.get_memory c
    | _ => some ((0x00 : Nat), c))
  let result := rotate_left8 memory
  let address := u16 (c.registers.pc + 65535)
  let c ← c.set_memory_at_address address (u8 result)
  let c := c.setNegative (c.registers.ac &&& 0x80 == 0x80)
  let c := c.setZero (c.registers.ac == 0)
  let c := c.setCarry false
  some (true, c)

/-- LSR::execute (src/instructions.rs lines 1216-1249): Carry comes from
overflowing_shr, which reports only whether the shift amount was 8 or
more, so it is false; the shifted value is stored at pc - 1. -/
def LSR.execute (opcode : Nat) (c : CPU) : Option (Bool × CPU) := do
  let (memory, c) ← (match opcode with
    | 0x4A => do
        let p := overflowing_shr8 c.registers.ac 1
        let c := c.setAC p.1
        let c := c.setNegative (c.registers.ac &&& 0x80 == 0x80)
        let c := c.setZero (c.registers.ac == 0)
        let c := c.setCarry p.2
        some ((0x00 : Nat), c)
    | 0x46 => Mode.Zeropage.get_memory c
    | 0x56 => Mode.ZeropageX.get_memory c
    | 0x4E => Mode.Absolute.get_memory c
    | 0x5E => Mode.AbsoluteX.get_memory c
    | _ => some ((0x00 : Nat), c))
  let p := overflowing_shr8 memory 1
  let address := u16 (c.registers.pc + 65535)
  let c ← c.set_memory_at_address address p.1
  let c := c.setNegative (c.registers.ac &&& 0x80 == 0x80)
  let c := c.setZero (c.registers.ac == 0)
  let c := c.setCarry p.2
  some (true, c)

/-- ROR::execute (src/instructions.rs lines 1250-1283): Carry is set to
false unconditionally; the rotated value is stored at pc - 1. -/
def ROR.execute (opcode : Nat) (c : CPU) : Option (Bool × CPU) := do
  let (memory, c) ← (match opcode with
    | 0x6A => do
        let result := rotate_right8 c.registers.ac
        let c := c.setAC (u8 result)
        let c := c.setNegative (c.registers.ac &&& 0x80 == 0x80)
        let c := c.setZero (c.registers.ac == 0)
        let c := c.setCarry false
        some ((0x00 : Nat), c)
    | 0x66 => Mode.Zeropage.get_memory c
    | 0x76 => Mode.ZeropageX.get_memory c
    | 0x6E => Mode.Absolute.get_memory c
    | 0x7E => Mode.AbsoluteX.get_memory c
    | _ => some ((0x00 : Nat), c))
  let result := rotate_right8 memory
  let address := u16 (c.registers.pc + 65535)
  let c ← c.set_memory_at_address address result
  let c := c.setNegative (c.registers.ac &&& 0x80 == 0x80)
  let c := c.setZero (c.registers.ac == 0)
  let c := c.setCarry false
  some (true, c)

/-- STX::execute (src/instructions.rs lines 1284-1301): the trailing
println reads address 0x4200, a state-preserving access kept for
fidelity. -/
def STX.execute (opcode : Nat) (c : CPU) : Option (Bool × CPU) := do
  let c ← (match opcode with
    | 0x86 => Mode.Zeropage.set_memory c.registers.x c
    | 0x96 => Mode.ZeropageY.set_memory c.registers.x c
    | 0x8E => Mode.Absolute.set_memory c.registers.x c
    | _ => some c)
  let (_, c) ← c.get_memory_at_address 0x4200
  some (true, c)

/-- DEC::execute (src/instructions.rs lines 1302-1333): fetches through a
mode, rewinds the program counter twice, and writes the decremented byte
back through a mode (AbsoluteX for both absolute opcodes). -/
def DEC.execute (opcode : Nat) (c : CPU) : Option (Bool × CPU) := do
  let c ← (match opcode with
    | 0xC6 => do
        let (memory, c) ← Mode.Zeropage.get_memory c
        let (_, c) := c.decPC
        let (_, c) := c.decPC
        Mode.Zeropage.set_memory (u8 (memory + 255)) c
    | 0xD6 => do
        let (memory, c) ← Mode.ZeropageX.get_memory c
        let (_, c) := c.decPC
        let (_, c) := c.decPC
        Mode.ZeropageX.set_memory (u8 (memory + 255)) c
    | 0xCE => do
        let (memory, c) ← Mode.Absolute.get_memory c
        let (_, c) := c.decPC
        let (_, c) := c.decPC
        Mode.AbsoluteX.set_memory (u8 (memory + 255)) c
    | 0xDE => do
        let (memory, c) ← Mode.Absolute.get_memory c
        let (_, c) := c.decPC
        let (_, c) := c.decPC
        Mode.AbsoluteX.set_memory (u8 (memory + 255)) c
    | _ => some c)
  some (true, c)

/-- INC::execute (src/instructions.rs lines 1334-1365): same shape as
DEC with a wrapping increment. -/
def INC.execute (opcode : Nat) (c : CPU) : Option (Bool × CPU) := do
  let c ← (match opcode with
    | 0xE6 => do
        let (memory, c) ← Mode.Zeropage.get_memory c
        let (_, c) := c.decPC
        let (_, c) := c.decPC
        Mode.Zeropage.set_memory (u8 (memory + 1)) c
    | 0xF6 => do
        let (memory, c) ← Mode.ZeropageX.get_memory c
        let (_, c) := c.decPC
        let (_, c) := c.decPC
        Mode.ZeropageX.set_memory (u8 (memory + 1)) c
    | 0xEE => do
        let (memory, c) ← Mode.Absolute.get_memory c
        let (_, c) := c.decPC
        let (_, c) := c.decPC
        Mode.AbsoluteX.set_memory (u8 (memory + 1)) c
    | 0xFE => do
        let (memory, c) ← Mode.Absolute.get_memory c
        let (_, c) := c.decPC
        let (_, c) := c.decPC
        Mode.AbsoluteX.set_memory (u8 (memory + 1)) c
    | _ => some c)
  some (true, c)

/-- PHP::execute (src/instructions.rs lines 1366-1371). -/
def PHP.execute (_opcode : Nat) (c : CPU) : Option (Bool × CPU) :=
  some (true, c.push_to_stack c.registers.sr.toByte)

/-- CLC::execute (src/instructions.rs lines 1372-1377). -/
def CLC.execute (_opcode : Nat) (c : CPU) : Option (Bool × CPU) :=
  some (true, c.setCarry false)

/-- PLP::execute (src/instructions.rs lines 1378-1383). -/
def PLP.execute (_opcode : Nat) (c : CPU) : Option (Bool × CPU) := do
  let (v, c) ← c.pull_from_stack
  some (true, c.setSR (StatRegister.fromByte v))

/-- SEC::execute (src/instructions.rs lines 1384-1389). -/
def SEC.execute (_opcode : Nat) (c : CPU) : Option (Bool × CPU) :=
  some (true, c.setCarry true)

/-- PHA::execute (src/instructions.rs lines 1390-1395). -/
def PHA.execute (_opcode : Nat) (c : CPU) : Option (Bool × CPU) :=
  some (true, c.push_to_stack c.registers.ac)

/-- CLI::execute (src/instructions.rs lines 1396-1401). -/
def CLI.execute (_opcode : Nat) (c : CPU) : Option (Bool × CPU) :=
  some (true, c.setInterrupt false)

/-- PLA::execute (src/instructions.rs lines 1402-1409). -/
def PLA.execute (_opcode : Nat) (c : CPU) : Option (Bool × CPU) := do
  let (v, c) ← c.pull_from_stack
  let c := c.setAC v
  let c := c.setNegative (c.registers.ac &&& 0x80 == 0x80)
  let c := c.setZero (c.registers.ac == 0)
  some (true, c)

/-- SEI::execute (src/instructions.rs lines 1410-1415). -/
def SEI.execute (_opcode : Nat) (c : CPU) : Option (Bool × CPU) :=
  some (true, c.setInterrupt true)

/-- DEY::execute (src/instructions.rs lines 1416-1423). -/
def DEY.execute (_opcode : Nat) (c : CPU) : Option (Bool × CPU) := do
  let c := c.setY (u8 (c.registers.y + 255))
  let c := c.setNegative (c.registers.y &&& 0x80 == 0x80)
  let c := c.setZero (c.registers.y == 0)
  some (true, c)

/-- TYA::execute (src/instructions.rs lines 1424-1431). -/
def TYA.execute (_opcode : Nat) (c : CPU) : Option (Bool × CPU) := do
  let c := c.setAC c.registers.y
  let c := c.setNegative (c.registers.ac &&& 0x80 == 0x80)
  let c := c.setZero (c.registers.ac == 0)
  some (true, c)

/-- TAY::execute (src/instructions.rs lines 1432-1439). -/
def TAY.execute (_opcode : Nat) (c : CPU) : Option (Bool × CPU) := do
  let c := c.setY c.registers.ac
  let c := c.setNegative (c.registers.y &&& 0x80 == 0x80)
  let c := c.setZero (c.registers.y == 0)
  some (true, c)

/-- CLV::execute (src/instructions.rs lines 1440-1445): sets (rather
than clears) the Overflow flag, as written. -/
def CLV.execute (_opcode : Nat) (c : CPU) : Option (Bool × CPU) :=
  some (true, c.setOverflow true)

/-- INY::execute (src/instructions.rs lines 1446-1453). -/
def INY.execute (_opcode : Nat) (c : CPU) : Option (Bool × CPU) := do
  let c := c.setY (u8 (c.registers.y + 1))
  let c := c.setNegative (c.registers.y &&& 0x80 == 0x80)
  let c := c.setZero (c.registers.y == 0)
  some (true, c)

/-- CLD::execute (src/instructions.rs lines 1454-1459). -/
def CLD.execute (_opcode : Nat) (c : CPU) : Option (Bool × CPU) :=
  some (true, c.setDecimal false)

/-- INX::execute (src/instructions.rs lines 1460-1467). -/
def INX.execute (_opcode : Nat) (c : CPU) : Option (Bool × CPU) := do
  let c := c.setX (u8 (c.registers.x + 1))
  let c := c.setNegative (c.registers.x &&& 0x80 == 0x80)
  let c := c.setZero (c.registers.x == 0)
  some (true, c)

/-- SED::execute (src/instructions.rs lines 1468-1473). -/
def SED.execute (_opcode : Nat) (c : CPU) : Option (Bool × CPU) :=
  some (true, c.setDecimal true)

/-- TXA::execute (src/instructions.rs lines 1474-1481). -/
def TXA.execute (_opcode : Nat) (c : CPU) : Option (Bool × CPU) := do
  let c := c.setAC c.registers.x
  let c := c.setNegative (c.registers.ac &&& 0x80 == 0x80)
  let c := c.setZero (c.registers.ac == 0)
  some (true, c)

/-- TXS::execute (src/instructions.rs lines 1482-1489). -/
def TXS.execute (_opcode : Nat) (c : CPU) : Option (Bool × CPU) := do
  let c := c.setSP c.registers.x
  let c := c.setNegative (c.registers.sp &&& 0x80 == 0x80)
  let c := c.setZero (c.registers.sp == 0)
  some (true, c)

/-- TAX::execute (src/instructions.rs lines 1490-1497). -/
def TAX.execute (_opcode : Nat) (c : CPU) : Option (Bool × CPU) := do
  let c := c.setX c.registers.ac
  let c := c.setNegative (c.registers.x &&& 0x80 == 0x80)
  let c := c.setZero (c.registers.x == 0)
  some (true, c)

/-- TSX::execute (src/instructions.rs lines 1498-1505). -/
def TSX.execute (_opcode : Nat) (c : CPU) : Option (Bool × CPU) := do
  let c := c.setX c.registers.sp
  let c := c.setNegative (c.registers.x &&& 0x80 == 0x80)
  let c := c.setZero (c.registers.x == 0)
  some (true, c)

/-- DEX::execute (src/instructions.rs lines 1506-1513). -/
def DEX.execute (_opcode : Nat) (c : CPU) : Option (Bool × CPU) := do
  let c := c.setX (u8 (c.registers.x + 255))
  let c := c.setNegative (c.registers.x &&& 0x80 == 0x80)
  let c := c.setZero (c.registers.x == 0)
  some (true, c)

/-- NOP::execute (src/instructions.rs lines 1515-1519). -/
def NOP.execute (_opcode : Nat) (c : CPU) : Option (Bool × CPU) :=
  some (true, c)

/-- The closed instruction set, one constructor per mnemonic object built
by init_instructions (src/instructions.rs lines 247-306). -/
inductive Instr where
  | BRK | BPL | JSR | BMI | RTI | BVC | RTS | BVS | BCC | LDY | BCS
  | CPY | BNE | CPX | BEQ | ORA | AND | EOR | ADC | STA | LDA | CMP
  | SBC | LDX | BIT | STY | ASL | ROL | LSR | ROR | STX | DEC | INC
  | NOP | PHP | CLC | PLP | SEC | PHA | CLI | PLA | SEI | DEY | TYA
  | TAY | CLV | INY | CLD | INX | SED | TXA | TXS | TAX | TSX | DEX
  deriving DecidableEq

/-- Declared opcode set of each instruction, from the instruction! macro
invocations in src/instructions.rs. -/
def Instr.get_opcodes : Instr → List Nat
  | .BRK => [0x00]
  | .BPL => [0x10]
  | .JSR => [0x20]
  | .BMI => [0x30]
  | .RTI => [0x40]
  | .BVC => [0x50]
  | .RTS => [0x60]
  | .BVS => [0x70]
  | .BCC => [0x90]
  | .LDY => [0xA0, 0xA4, 0xB4, 0xAC, 0xBC]
  | .BCS => [0xB0]
  | .CPY => [0xC0, 0xC4, 0xCC]
  | .BNE => [0xD0]
  | .CPX => [0xE0, 0xE4]
  | .BEQ => [0xF0]
  | .ORA => [0x09, 0x05, 0x15, 0x0D, 0x1D, 0x19, 0x01, 0x11]
  | .AND => [0x29, 0x25, 0x35, 0x2D, 0x3D, 0x39, 0x21, 0x31]
  | .EOR => [0x49, 0x45, 0x55, 0x4D, 0x5D, 0x59, 0x41, 0x51]
  | .ADC => [0x69, 0x65, 0x75, 0x6D, 0x7D, 0x79, 0x61, 0x71]
  | .STA => [0x85, 0x95, 0x8D, 0x9D, 0x99, 0x81, 0x91]
  | .LDA => [0xA9, 0xA5, 0xB5, 0xAD, 0xBD, 0xB9, 0xA1, 0xB1]
  | .CMP => [0xC9, 0xC5, 0xD5, 0xCD, 0xDD, 0xD9, 0xC1, 0xD1]
  | .SBC => [0xE9, 0xE5, 0xF5, 0xED, 0xFD, 0xF9, 0xE1, 0xF1]
  | .LDX => [0xA2, 0xA6, 0xB6, 0xAE, 0xBE]
  | .BIT => [0x24, 0x2C]
  | .STY => [0x84, 0x94, 0x8C]
  | .ASL => [0x0A, 0x06, 0x16, 0x0E, 0x1E]
  | .ROL => [0x2A, 0x26, 0x36, 0x2E, 0x3E]
  | .LSR => [0x4A, 0x46, 0x56, 0x4E, 0x5E]
  | .ROR => [0x6A, 0x66, 0x76, 0x6E, 0x7E]
  | .STX => [0x86, 0x96, 0x8E]
  | .DEC => [0xC6, 0xD6, 0xCE, 0xDE]
  | .INC => [0xE6, 0xF6, 0xEE, 0xFE]
  | .NOP => [0xEA]
  | .PHP => [0x08]
  | .CLC => [0x18]
  | .PLP => [0x28]
  | .SEC => [0x38]
  | .PHA => [0x48]
  | .CLI => [0x58]
  | .PLA => [0x68]
  | .SEI => [0x78]
  | .DEY => [0x88]
  | .TYA => [0x98]
  | .TAY => [0xA8]
  | .CLV => [0xB8]
  | .INY => [0xC8]
  | .CLD => [0xD8]
  | .INX => [0xE8]
  | .SED => [0xF8]
  | .TXA => [0x8A]
  | .TXS => [0x9A]
  | .TAX => [0xAA]
  | .TSX => [0xBA]
  | .DEX => [0xCA]

/-- The instruction table in the exact order init_instructions pushes the
boxed objects (src/instructions.rs lines 247-306); dispatch scans it
front to back. -/
def init_instructions : List Instr :=
  [.BRK, .BPL, .JSR, .BMI, .RTI, .BVC, .RTS, .BVS, .BCC, .LDY, .BCS,
   .CPY, .BNE, .CPX, .BEQ, .ORA, .AND, .EOR, .ADC, .STA, .LDA, .CMP,
   .SBC, .LDX, .BIT, .STY, .ASL, .ROL, .LSR, .ROR, .STX, .DEC, .INC,
   .NOP, .PHP, .CLC, .PLP, .SEC, .PHA, .CLI, .PLA, .SEI, .DEY, .TYA,
   .TAY, .CLV, .INY, .CLD, .INX, .SED, .TXA, .TXS, .TAX, .TSX, .DEX]

/-- Dispatch of the execute method on the instruction objects. -/
def Instr.execute : Instr → Nat → CPU → Option (Bool × CPU)
  | .BRK => BRK.execute
  | .BPL => BPL.execute
  | .JSR => JSR.execute
  | .BMI => BMI.execute
  | .RTI => RTI.execute
  | .BVC => BVC.execute
  | .RTS => RTS.execute
  | .BVS => BVS.execute
  | .BCC => BCC.execute
  | .LDY => LDY.execute
  | .BCS => BCS.execute
  | .CPY => CPY.execute
  | .BNE => BNE.execute
  | .CPX => CPX.execute
  | .BEQ => BEQ.execute
  | .ORA => ORA.execute
  | .AND => AND.execute
  | .EOR => EOR.execute
  | .ADC => ADC.execute
  | .STA => STA.execute
  | .LDA => LDA.execute
  | .CMP => CMP.execute
  | .SBC => SBC.execute
  | .LDX => LDX.execute
  | .BIT => BIT.execute
  | .STY => STY.execute
  | .ASL => ASL.execute
  | .ROL => ROL.execute
  | .LSR => LSR.execute
  | .ROR => ROR.execute
  | .STX => STX.execute
  | .DEC => DEC.execute
  | .INC => INC.execute
  | .NOP => NOP.execute
  | .PHP => PHP.execute
  | .CLC => CLC.execute
  | .PLP => PLP.execute
  | .SEC => SEC.execute
  | .PHA => PHA.execute
  | .CLI => CLI.execute
  | .PLA => PLA.execute
  | .SEI => SEI.execute
  | .DEY => DEY.execute
  | .TYA => TYA.execute
  | .TAY => TAY.execute
  | .CLV => CLV.execute
  | .INY => INY.execute
  | .CLD => CLD.execute
  | .INX => INX.execute
  | .SED => SED.execute
  | .TXA => TXA.execute
  | .TXS => TXS.execute
  | .TAX => TAX.execute
  | .TSX => TSX.execute
  | .DEX => DEX.execute

/-- Outcome of one fetch-decode-execute cycle: either the next CPU state,
or a process-terminating panic (the unknown-opcode panic in
execute_instruction, or an out-of-bounds array access). -/
inductive StepOutcome where
  | ok (c : CPU)
  | panicked

/-- CPU::execute_instruction (src/cpu.rs lines 213-225): scans the
instruction table for the first entry whose opcode set contains the
fetched byte and panics when none does; after an execute that returns
true the program counter is advanced and the byte there is read for the
trace println (a read that itself may touch the program counter). -/
def CPU.execute_instruction (c : CPU) (opcode : Nat) : StepOutcome :=
  match init_instructions.find? (fun i => i.get_opcodes.contains opcode) with
  | none => StepOutcome.panicked
  | some i =>
    match i.execute opcode c with
    | none => StepOutcome.panicked
    | some (b, c) =>
      if b then
        let p := c.incPC
        match p.2.get_umemory_at_address p.1 with
        | none => StepOutcome.panicked
        | some (_, c) => StepOutcome.ok c
      else StepOutcome.ok c

/-- One iteration of the CPU::run loop body (src/cpu.rs lines 152-165)
minus the wall-clock pacing: fetch the cell at the program counter (an
unchecked index, a panic at pc = 0xFFFF) and execute it.  This is the
`step()` of the spec. -/
def CPU.step (c : CPU) : StepOutcome :=
  if c.registers.pc < memLen then
    c.execute_instruction (c.memory c.registers.pc)
  else StepOutcome.panicked

/-- Iterated step, stopping at the first panic. -/
def CPU.steps : Nat → CPU → StepOutcome
  | 0, c => StepOutcome.ok c
  | n + 1, c =>
    match c.step with
    | StepOutcome.ok c2 => CPU.steps n c2
    | StepOutcome.panicked => StepOutcome.panicked

/-- Observation of the program counter after a step. -/
def StepOutcome.pcOf : StepOutcome → Option Nat
  | .ok c => some c.registers.pc
  | .panicked => none

/-- Observation of (Negative flag, accumulator) after a step. -/
def StepOutcome.negAcOf : StepOutcome → Option (Bool × Nat)
  | .ok c => some (c.registers.sr.negative, c.registers.ac)
  | .panicked => none

/-- Observation of (Zero flag, Carry flag) after a step. -/
def StepOutcome.zeroCarryOf : StepOutcome → Option (Bool × Bool)
  | .ok c => some (c.registers.sr.zero, c.registers.sr.carry)
  | .panicked => none

/-- Observation of (accumulator, Zero flag) after a step. -/
def StepOutcome.acZeroOf : StepOutcome → Option (Nat × Bool)
  | .ok c => some (c.registers.ac, c.registers.sr.zero)
  | .panicked => none

/-- Dispatch misses every instruction whose declared opcode set excludes
the fetched byte, so the table scan yields none. -/
theorem find_instruction_eq_none (op : Nat)
    (h : ∀ i ∈ init_instructions, op ∉ i.get_opcodes) :
    init_instructions.find? (fun i => i.get_opcodes.contains op) = none := by
  rw [List.find?_eq_none]
  intro i hi
  simpa using h i hi

/-- C1: the claim states that after ADC, SBC, AND, ORA and EOR the
Negative flag equals bit 7 of the result.  The code tests
`result & 0x80 == 1`, which never holds, so Negative stays false even
when bit 7 of the result is set: executing ORA immediate 0x00 with
accumulator 0x80 yields result 0x80 with Negative false, and executing
ADC immediate 0x01 with accumulator 0x7F yields result 0x80 with
Negative false.  (The Zero half of the claim does hold; the theorem
exhibits the Negative half failing.) -/
theorem c1_arith_logic_negative_flag_failing :
    (((loadProgram CPU.new [0x09, 0x00]).setAC 0x80).step).negAcOf = some (false, 0x80) ∧
    (((loadProgram CPU.new [0x69, 0x01]).setAC 0x7F).step).negAcOf = some (false, 0x80) :=
  ⟨rfl, rfl⟩

/-- C2: the claim states the status-byte round trip
`to_byte(from_byte(b)) = b` for every byte.  from_byte compares
`byte & mask == 1` (true only for the 0x1 mask) and assigns bit 0 to
Negative while to_byte emits Negative at bit 7, so the round trip maps
0x01 to 0x80 and 0x02 to 0x00. -/
theorem c2_status_roundtrip_failing :
    StatRegister.toByte (StatRegister.fromByte 0x01) = 0x80 ∧
    StatRegister.toByte (StatRegister.fromByte 0x02) = 0x00 :=
  ⟨rfl, rfl⟩

/-- C3: the claim states that a write succeeds at every 16-bit address
including 0xFFFF with no bounds failure, and that a following read
returns the written byte.  The memory array is declared with length
0xFFFF (65535 cells), so the store at address 0xFFFF indexes out of
bounds and panics (modelled as none); at any lower address, such as
0x1234, the write-then-read round trip does return the byte. -/
theorem c3_memory_write_bounds_failing :
    CPU.new.set_memory_at_address 0xFFFF 0x42 = none ∧
    (CPU.new.set_memory_at_address 0x1234 0x42).bind
      (fun c => (c.get_memory_at_address 0x1234).map (fun p => p.1)) = some 0x42 :=
  ⟨rfl, rfl⟩

/-- C4: the claim states that pull returns the byte just pushed,
restoring the stack pointer, and that both operations wrap at the
256-byte boundary (pull at 0x00 leaving 0xFF).  pull reads the cell at
the pre-decrement pointer (one above the slot push wrote), so pushing
0x42 onto the fresh stack and pulling returns 0x00; and pulling with the
stack pointer at 0x00 sets it to the 255-cell stack length, decrements,
and then reads index 255, which is out of bounds (a panic, none) rather
than a wrap to 0xFF. -/
theorem c4_stack_push_pull_failing :
    ((CPU.new.push_to_stack 0x42).pull_from_stack).map
      (fun p => (p.1, p.2.registers.sp)) = some (0x00, 0x00) ∧
    CPU.new.pull_from_stack = none :=
  ⟨rfl, rfl⟩

/-- C5: the claim states that BEQ with operand 0xFE and the Zero flag set
leaves the program counter at 0 (offset interpreted as two of-complement
minus 2).  The code instead subtracts `operand & 0x7F` = 0x7E = 126 from
the program counter, so from the program [0xF0, 0xFE] at address 0 one
step leaves the program counter at 1 - 126 mod 65536 = 0xFF83, not 0. -/
theorem c5_beq_branch_displacement_failing :
    (((loadProgram CPU.new [0xF0, 0xFE]).setZero true).step).pcOf = some 0xFF83 :=
  rfl

/-- C6: the claim states that JSR to a target followed by RTS restores
the program counter to the instruction after the JSR.  From the fresh
CPU (pc = 0, stack zeroed), JSR pushes 0x00 then 0x02 and jumps
relatively; the subsequent RTS pulls the cell above each slot that was
written, producing 0x00 as the low byte and 0x02 as the high byte, so
the program counter ends at 0x0200 instead of the return point. -/
theorem c6_jsr_rts_symmetry_failing :
    (JSR.execute 0x20 CPU.new).bind
      (fun p => (RTS.execute 0x60 p.2).map (fun q => q.2.registers.pc)) = some 0x0200 :=
  rfl

/-- C7: the claim states that CMP immediate 5 with accumulator 5 leaves
Zero true and Carry true (carry = no borrow).  The code assigns the
borrow flag of overflowing_sub directly to Carry, so the no-borrow
comparison leaves Carry false: one step on accumulator 0x05 and program
[0xC9, 0x05] gives Zero true but Carry false. -/
theorem c7_cmp_carry_failing :
    (((loadProgram CPU.new [0xC9, 0x05]).setAC 0x05).step).zeroCarryOf = some (true, false) :=
  rfl

/-- C8 counterexample: the claim states that a step on an opcode outside
every declared opcode set reports an UnknownOpcode failure result to the
caller without terminating the whole process.  The code panics in
execute_instruction instead: stepping on the unknown opcode 0x02 ends in
the process-terminating panic outcome, not a reportable failure value. -/
theorem c8_unknown_opcode_panics_counterexample :
    (loadProgram CPU.new [0x02]).step = StepOutcome.panicked :=
  rfl

/-- C8 amended: for every fetched opcode byte contained in no declared
opcode set, a step panics (terminating the process) without executing
any instruction; no state mutation is reported because the panic aborts
before any instruction routine runs. -/
theorem c8_unknown_opcode_always_panics (c : CPU) (op : Nat)
    (hpc : c.registers.pc < memLen)
    (hop : c.memory c.registers.pc = op)
    (hunknown : ∀ i ∈ init_instructions, op ∉ i.get_opcodes) :
    c.step = StepOutcome.panicked := by
  unfold CPU.step
  rw [if_pos hpc, hop]
  unfold CPU.execute_instruction
  rw [find_instruction_eq_none op hunknown]

/-- C8 witness: the amended theorem applied to the fresh CPU loaded with
the unknown opcode 0x03 at address 0. -/
theorem c8_unknown_opcode_always_panics_witness :
    (loadProgram CPU.new [0x03]).step = StepOutcome.panicked :=
  c8_unknown_opcode_always_panics (loadProgram CPU.new [0x03]) 0x03
    (by decide) rfl (by decide)

/-- C9: the claim states that the program LDA #5; STA $10; LDA #0;
LDA $10 leaves the accumulator at 0x05 with Zero clear after four steps.
The zero-page arms of STA and LDA use the (masked) address of the
operand byte itself as the effective address, so STA stores 5 over the
operand at address 3 and the final LDA reads the operand byte 0x10 at
address 7: the accumulator ends at 0x10, not 0x05 (Zero is indeed
clear). -/
theorem c9_end_to_end_scenario_failing :
    (CPU.steps 4 (loadProgram CPU.new
      [0xA9, 0x05, 0x85, 0x10, 0xA9, 0x00, 0xA5, 0x10])).acZeroOf = some (0x10, false) :=
  rfl

/-- C10 counterexample: the claim states that a read at address 0xFFFF
increments the program counter and returns the byte at the new program
counter.  With the program counter at 0xFFFE the incremented counter is
0xFFFF, the length of the memory array, so the redirected access indexes
out of bounds and panics (none) instead of returning a byte. -/
theorem c10_read_at_pc_fffe_panics :
    (CPU.new.setPC 0xFFFE).get_memory_at_address 0xFFFF = none :=
  rfl

/-- C10 amended: for every address strictly below 0xFFFF both read
accessors return the stored cell value and leave the whole CPU state
(program counter and all registers) unchanged; at address exactly 0xFFFF
they increment the program counter and return the byte at the new
program counter, provided that incremented counter is itself below
0xFFFF (otherwise the access is out of bounds and panics). -/
theorem c10_read_accessors_characterised (c : CPU) (addr : Nat) :
    (addr < memLen →
      c.get_memory_at_address addr = some (c.memory addr, c) ∧
      c.get_umemory_at_address addr = some (u8 (c.memory addr), c)) ∧
    (addr = memLen → u16 (c.registers.pc + 1) < memLen →
      c.get_memory_at_address addr =
        some (c.memory (u16 (c.registers.pc + 1)), c.setPC (u16 (c.registers.pc + 1))) ∧
      c.get_umemory_at_address addr =
        some (u8 (c.memory (u16 (c.registers.pc + 1))), c.setPC (u16 (c.registers.pc + 1)))) := by
  constructor
  · intro h
    have hne : addr ≠ memLen := Nat.ne_of_lt h
    constructor
    · simp [CPU.get_memory_at_address, hne, h]
    · simp [CPU.get_umemory_at_address, hne, h]
  · intro h h2
    subst h
    constructor
    · simp [CPU.get_memory_at_address, CPU.incPC, Registers.increment_pc, CPU.setPC, h2]
    · simp [CPU.get_umemory_at_address, CPU.incPC, Registers.increment_pc, CPU.setPC, h2]

/-- C10 witness: the amended theorem applied at address 0x20 on the
fresh CPU, and at address 0xFFFF on the fresh CPU with program counter
0x10. -/
theorem c10_read_accessors_characterised_witness :
    (CPU.new.get_memory_at_address 0x20 = some (CPU.new.memory 0x20, CPU.new) ∧
     CPU.new.get_umemory_at_address 0x20 = some (u8 (CPU.new.memory 0x20), CPU.new)) ∧
    ((CPU.new.setPC 0x10).get_memory_at_address 0xFFFF =
       some ((CPU.new.setPC 0x10).memory (u16 ((CPU.new.setPC 0x10).registers.pc + 1)),
             (CPU.new.setPC 0x10).setPC (u16 ((CPU.new.setPC 0x10).registers.pc + 1))) ∧
     (CPU.new.setPC 0x10).get_umemory_at_address 0xFFFF =
       some (u8 ((CPU.new.setPC 0x10).memory (u16 ((CPU.new.setPC 0x10).registers.pc + 1))),
             (CPU.new.setPC 0x10).setPC (u16 ((CPU.new.setPC 0x10).registers.pc + 1)))) :=
  ⟨(c10_read_accessors_characterised CPU.new 0x20).1 (by decide),
   (c10_read_accessors_characterised (CPU.new.setPC 0x10) 0xFFFF).2 rfl (by decide)⟩

end Grey6502
